import Mathlib

/-!
# capture-screenshots.js

A verification development for `src/capture-screenshots.js`: one asynchronous
function that drives a headless browser through a fixed sequence of awaited
library calls, writing four screenshots and six progress lines.

The script is embedded as a program in a state-and-exception monad `Script`.
The browser-automation library is external to the repository; its calls are
modelled by `await`, whose outcome is decided by a `World` (which calls fail,
which selectors resolve to an element at which moment).  Every observable
effect is appended to an event trace, so "a point of the run" is a finite
initial segment of that trace.
-/

namespace CaptureScreenshots

/-! ## Data model -/

/-- Pixel dimensions (a viewport, a bounding box, an image). -/
structure Size where
  width : Nat
  height : Nat
deriving DecidableEq, Repr

/-- A locator: the selector it resolves, and whether `first()` narrowed it. -/
structure Locator where
  selector : String
  firstOnly : Bool
deriving DecidableEq, Repr

/-- The awaited library calls the script issues, with their literal arguments. -/
inductive Call where
  | launch (headless : Bool)
  | newContext (viewport : Size)
  | newPage
  | goto (url : String) (waitUntil : String)
  | reload (waitUntil : String)
  | pageScreenshot (path : String) (fullPage : Bool)
  | evaluate
  | waitForTimeout (ms : Nat)
  | locatorScreenshot (target : Locator) (path : String)
  | hover (target : Locator)
  | close
deriving DecidableEq, Repr

/-- Observable events of a run, in the order they happen. -/
inductive Event where
  | called (c : Call)
  | returned (c : Call)
  | threw (c : Call)
  | wrote (path : String)
  | printed (line : String)
deriving DecidableEq, Repr

/-- How an element of the page is rendered: its bounding box (empty when the
element is not laid out, as with `display: none`) and whether its computed
style is `visibility: hidden`. -/
structure Rendering where
  box : Size
  hidden : Bool
deriving DecidableEq, Repr

/-- The library's notion of a visible element: a non-empty bounding box and no
`visibility: hidden`. -/
def Rendering.visible (r : Rendering) : Bool :=
  !r.hidden && decide (0 < r.box.width) && decide (0 < r.box.height)

/-- A DOM element as seen by a page-side script: the selector that found it and
how it is rendered. -/
structure Element where
  matchedBy : String
  rendering : Rendering
deriving DecidableEq, Repr

/-- Page-side effects performed by scripts run through `page.evaluate`. -/
inductive DomEffect where
  | scrollIntoView (target : String) (behavior : String) (block : String)
deriving DecidableEq, Repr

/-- The `document` object handed to a page-side script. -/
structure Document where
  querySelector : String → Option Element

/-- The method `element.scrollIntoView` with options `behavior` and `block`. -/
def Element.scrollIntoView (el : Element) (behavior block : String) : DomEffect :=
  DomEffect.scrollIntoView el.matchedBy behavior block

/-- The filesystem, as far as the script is concerned: which paths hold a file,
and the pixel dimensions of the image stored there. -/
abbrev FS := String → Option Size

/-- Everything outside the script's control.  The index is the number of
library calls issued before the call in question.

* `fault i`: the call fails for a reason other than a missing or invisible
  element (unreachable server, navigation timeout, browser crash, write
  failure, an element that is covered or never comes to rest);
* `first i sel`: the first element of the page matching `sel` at that moment
  (within the library's waiting period), `none` when nothing matches;
* `documentSize i`: the full scrollable size of the page at that moment. -/
structure World where
  fault : Nat → Bool
  first : Nat → String → Option Rendering
  documentSize : Nat → Size

/-- Whether a locator for `sel` can be acted on at moment `i`: some element
matches and the first match is visible.  The library waits for this before a
locator screenshot or hover, and times out otherwise. -/
def World.actionable (w : World) (i : Nat) (sel : String) : Bool :=
  match w.first i sel with
  | some r => r.visible
  | none => false

/-- The state threaded through a run. -/
structure State where
  clock : Nat
  trace : List Event
  fs : FS
  pageEffects : List (Nat × DomEffect)

/-- A script: reads the world, updates the state, and either yields a value or
is aborted by the call that threw. -/
def Script (α : Type) : Type := World → State → Except Call α × State

instance : Monad Script where
  pure a := fun _ s => (Except.ok a, s)
  bind m f := fun w s =>
    match m w s with
    | (Except.ok a, s1) => f a w s1
    | (Except.error e, s1) => (Except.error e, s1)

/-- Append one event to the trace. -/
def State.emit (s : State) (e : Event) : State :=
  { s with trace := s.trace ++ [e] }

/-- Store an image at `path` (creating or overwriting the file). -/
def State.write (s : State) (path : String) (img : Size) : State :=
  { s with fs := fun p => if p = path then some img else s.fs p,
           trace := s.trace ++ [Event.wrote path] }

/-- Whether the library call issued at moment `i` fails: the world makes it
fail, or it acts on a locator (`needs`) that resolves to no visible element. -/
def callFails (w : World) (i : Nat) (needs : Option String) : Bool :=
  w.fault i ||
    match needs with
    | some sel => !w.actionable i sel
    | none => false

/-- An awaited library call `c`.  The call is issued; it throws when the world
makes it fail, or when it acts on a locator (`needs`) that resolves to no
visible element; otherwise its `effect` takes place and it returns `result`.  A call
that throws has no effect.  The script is suspended until the call has returned
or thrown. -/
def await {α : Type} (c : Call) (needs : Option String)
    (effect : World → Nat → State → State) (result : α) : Script α :=
  fun w s =>
    let i := s.clock
    let s1 := { s with clock := i + 1, trace := s.trace ++ [Event.called c] }
    if callFails w i needs then
      (Except.error c, s1.emit (Event.threw c))
    else
      (Except.ok result, (effect w i s1).emit (Event.returned c))

/-! ## The library surface used by the script -/

/-- A browser handle. -/
structure Browser where
deriving DecidableEq, Repr

/-- A browsing-context handle; it fixes the viewport of its pages. -/
structure BrowserContext where
  viewport : Size
deriving DecidableEq, Repr

/-- A page handle. -/
structure Page where
  viewport : Size
deriving DecidableEq, Repr

/-- The call `chromium.launch` with option `headless`. -/
def chromium.launch (headless : Bool) : Script Browser :=
  await (Call.launch headless) none (fun _ _ s => s) {}

/-- The call `browser.newContext` with option `viewport`. -/
def Browser.newContext (_browser : Browser) (viewport : Size) : Script BrowserContext :=
  await (Call.newContext viewport) none (fun _ _ s => s) { viewport := viewport }

/-- The call `context.newPage`. -/
def BrowserContext.newPage (context : BrowserContext) : Script Page :=
  await Call.newPage none (fun _ _ s => s) { viewport := context.viewport }

/-- The call `page.goto` with option `waitUntil`. -/
def Page.goto (_page : Page) (url waitUntil : String) : Script Unit :=
  await (Call.goto url waitUntil) none (fun _ _ s => s) ()

/-- The call `page.reload` with option `waitUntil`. -/
def Page.reload (_page : Page) (waitUntil : String) : Script Unit :=
  await (Call.reload waitUntil) none (fun _ _ s => s) ()

/-- The call `page.screenshot` with options `path` and `fullPage`: the image is
the viewport, or the whole document when `fullPage` is set. -/
def Page.screenshot (page : Page) (path : String) (fullPage : Bool) : Script Unit :=
  await (Call.pageScreenshot path fullPage) none
    (fun w i s => s.write path (if fullPage then w.documentSize i else page.viewport)) ()

/-- The method `page.locator`: builds a handle, contacts nothing, never throws. -/
def Page.locator (_page : Page) (selector : String) : Locator :=
  { selector := selector, firstOnly := false }

/-- The method `locator.first`: narrows a handle, contacts nothing, never throws. -/
def Locator.first (l : Locator) : Locator :=
  { l with firstOnly := true }

/-- The bounding box of the first element matching `sel` at moment `i`; empty
when nothing matches. -/
def World.boxOf (w : World) (i : Nat) (sel : String) : Size :=
  match w.first i sel with
  | some r => r.box
  | none => { width := 0, height := 0 }

/-- The call `locator.screenshot` with option `path`: the image is the bounding
region of the element; throws when no visible element matches. -/
def Locator.screenshot (l : Locator) (path : String) : Script Unit :=
  await (Call.locatorScreenshot l path) (some l.selector)
    (fun w i s => s.write path (w.boxOf i l.selector)) ()

/-- The call `locator.hover`; throws when no visible element matches. -/
def Locator.hover (l : Locator) : Script Unit :=
  await (Call.hover l) (some l.selector) (fun _ _ s => s) ()

/-- The call `page.evaluate`: runs `pageFunction` inside the page, against the
document as it is at that moment; `querySelector` finds the first matching
element whether it is visible or not.  The effects of the page function are
recorded with the moment of the call. -/
def Page.evaluate (_page : Page) (pageFunction : Document → List DomEffect) : Script Unit :=
  await Call.evaluate none
    (fun w i s =>
      let document : Document :=
        { querySelector := fun sel =>
            (w.first i sel).map (fun r => { matchedBy := sel, rendering := r }) }
      { s with pageEffects := s.pageEffects ++ (pageFunction document).map (fun e => (i, e)) }) ()

/-- The call `page.waitForTimeout`. -/
def Page.waitForTimeout (_page : Page) (ms : Nat) : Script Unit :=
  await (Call.waitForTimeout ms) none (fun _ _ s => s) ()

/-- The call `browser.close`. -/
def Browser.close (_browser : Browser) : Script Unit :=
  await Call.close none (fun _ _ s => s) ()

/-- The statement `console.log(line)`: synchronous, never throws. -/
def console.log (line : String) : Script Unit :=
  fun _ s => (Except.ok (), s.emit (Event.printed line))

/-! ## The script -/

/-- The body of the async function of `capture-screenshots.js`, lines 3-55. -/
def main : Script Unit := do
  let browser ← chromium.launch true
  let context ← browser.newContext { width := 1920, height := 1080 }
  let page ← context.newPage
  page.goto "http://localhost:8082" "networkidle"
  page.reload "networkidle"
  console.log "Page loaded successfully"
  page.screenshot ".playwright-mcp/hero-section-full.png" false
  console.log "Hero section screenshot saved"
  let navbar := (page.locator "nav").first
  navbar.screenshot ".playwright-mcp/navbar-glassmorphism.png"
  console.log "Navbar screenshot saved"
  page.evaluate (fun document =>
    match document.querySelector ".services-grid" with
    | some servicesSection => [servicesSection.scrollIntoView "smooth" "center"]
    | none => [])
  page.waitForTimeout 1000
  let servicesGrid := (page.locator ".services-grid").first
  servicesGrid.screenshot ".playwright-mcp/service-cards.png"
  console.log "Service cards screenshot saved"
  let firstCard := (page.locator ".service-card").first
  firstCard.hover
  page.waitForTimeout 500
  firstCard.screenshot ".playwright-mcp/service-card-hover.png"
  console.log "Service card hover screenshot saved"
  browser.close
  console.log "All screenshots captured successfully!"

/-- How the top-level promise of the async function settles: fulfilled, or
rejected with the error of the call that threw (nothing in the script catches
it). -/
inductive Outcome where
  | fulfilled
  | rejected (thrownBy : Call)
deriving DecidableEq, Repr

/-- What one run leaves behind. -/
structure Run where
  outcome : Outcome
  trace : List Event
  fs : FS
  pageEffects : List (Nat × DomEffect)

/-- One run of the script in world `w`, starting from filesystem `fs`. -/
def run (w : World) (fs : FS) : Run :=
  let r := main w { clock := 0, trace := [], fs := fs, pageEffects := [] }
  { outcome := match r.1 with
      | Except.ok _ => Outcome.fulfilled
      | Except.error c => Outcome.rejected c,
    trace := r.2.trace,
    fs := r.2.fs,
    pageEffects := r.2.pageEffects }

/-! ## Observations on a trace -/

/-- The library calls issued, in order. -/
def callsIssued (t : List Event) : List Call :=
  t.filterMap fun e => match e with
    | Event.called c => some c
    | _ => none

/-- The paths written, in order (one entry per write). -/
def filesWritten (t : List Event) : List String :=
  t.filterMap fun e => match e with
    | Event.wrote p => some p
    | _ => none

/-- The lines printed to standard output, in order. -/
def stdout (t : List Event) : List String :=
  t.filterMap fun e => match e with
    | Event.printed l => some l
    | _ => none

/-- The calls that threw, in order. -/
def thrown (t : List Event) : List Call :=
  t.filterMap fun e => match e with
    | Event.threw c => some c
    | _ => none

/-- Whether a line is printed between the return of call `a` and the issuing of
call `b`. -/
def printedBetween (t : List Event) (a b : Call) : Bool :=
  (((t.dropWhile fun e => e != Event.returned a).takeWhile fun e => e != Event.called b).any
    fun e => match e with
      | Event.printed _ => true
      | _ => false)

/-! ## Worlds used as concrete inputs -/

/-- The empty filesystem. -/
def noFiles : FS := fun _ => none

/-- A world in which every selector matches a visible element of 300 by 200
pixels, the document is 1920 by 4000 pixels, and exactly the call issued at moment `k`
fails.  The script issues 14 calls (moments 0 to 13), so `failingAt 14` is a
world in which the whole run succeeds. -/
def failingAt (k : Nat) : World :=
  { fault := fun i => i == k,
    first := fun _ _ => some { box := { width := 300, height := 200 }, hidden := false },
    documentSize := fun _ => { width := 1920, height := 4000 } }

/-- A world without faults in which the page has a visible `nav` and visible
service cards but nothing matches `.services-grid`. -/
def noServicesGrid : World :=
  { fault := fun _ => false,
    first := fun _ sel =>
      if sel = ".services-grid" then none
      else some { box := { width := 300, height := 200 }, hidden := false },
    documentSize := fun _ => { width := 1920, height := 4000 } }

/-- The world `noServicesGrid` in which, in addition, the page screenshot (the
call issued at moment 5) fails: the page loads, has a visible `nav` and no
`.services-grid`, and the first capture cannot be written. -/
def heroCaptureFails : World :=
  { noServicesGrid with fault := fun i => i == 5 }

/-- A world without faults in which the page has a `nav` element that is not
laid out (an empty bounding box, as with `display: none`), visible service
cards, and nothing matching `.services-grid`. -/
def collapsedNav : World :=
  { fault := fun _ => false,
    first := fun _ sel =>
      if sel = ".services-grid" then none
      else if sel = "nav" then some { box := { width := 0, height := 0 }, hidden := false }
      else some { box := { width := 300, height := 200 }, hidden := false },
    documentSize := fun _ => { width := 1920, height := 4000 } }

/-! ## The first failing call of a run -/

/-- The element each of the 14 calls of `main` acts on, in issuing order
(moments 6, 9, 10 and 12 are the locator actions; moment 7 is the evaluate
call). -/
def scriptNeeds : List (Option String) :=
  [none, none, none, none, none, none, some "nav", none, none, some ".services-grid",
   some ".service-card", none, some ".service-card", none]

/-- The first moment, from `i` on, at which a call with the listed needs fails;
`i` plus the length of the list when none does. -/
def firstFailure (w : World) : List (Option String) → Nat → Nat
  | [], i => i
  | n :: rest, i => if callFails w i n then i else firstFailure w rest (i + 1)

/-- The moment at which the run in world `w` aborts; 14 when it does not. -/
def abortIndex (w : World) : Nat := firstFailure w scriptNeeds 0


/-! ## Every run behaves like one of fifteen canonical runs -/

theorem callFails_failingAt (k i : Nat) (n : Option String) :
    callFails (failingAt k) i n = (i == k) := by
  cases n <;> simp [callFails, failingAt, World.actionable, Rendering.visible]

theorem firstFailure_le (w : World) (l : List (Option String)) (i : Nat) :
    firstFailure w l i ≤ i + l.length := by
  induction l generalizing i with
  | nil => simp [firstFailure]
  | cons n rest ih =>
    simp only [firstFailure, List.length_cons]
    split
    · omega
    · have := ih (i + 1)
      omega

theorem firstFailure_ge (w : World) (l : List (Option String)) (i : Nat) :
    i ≤ firstFailure w l i := by
  induction l generalizing i with
  | nil => simp [firstFailure]
  | cons n rest ih =>
    simp only [firstFailure]
    split
    · omega
    · have := ih (i + 1)
      omega

/-- No call before the first failure fails. -/
theorem firstFailure_before (w : World) (l : List (Option String)) (i j : Nat)
    (hij : i ≤ j) (hj : j < firstFailure w l i) :
    callFails w j (l.getD (j - i) none) = false := by
  induction l generalizing i with
  | nil => simp [firstFailure] at hj; omega
  | cons n rest ih =>
    simp only [firstFailure] at hj
    split at hj
    · omega
    · rename_i hn
      rcases Nat.eq_or_lt_of_le hij with h | h
      · subst h
        simpa using hn
      · have h1 := ih (i + 1) h hj
        have h2 : j - i = (j - (i + 1)) + 1 := by omega
        rw [h2]
        simpa using h1

/-- When some call fails, the call at the first failure fails. -/
theorem firstFailure_at (w : World) (l : List (Option String)) (i : Nat)
    (h : firstFailure w l i < i + l.length) :
    callFails w (firstFailure w l i) (l.getD (firstFailure w l i - i) none) = true := by
  induction l generalizing i with
  | nil => simp [firstFailure] at h
  | cons n rest ih =>
    simp only [firstFailure] at h ⊢
    split
    · rename_i hn
      simpa using hn
    · rename_i hn
      rw [if_neg hn] at h
      have hge := firstFailure_ge w rest (i + 1)
      have h1 := ih (i + 1) (by simp only [List.length_cons] at h; omega)
      have h2 : firstFailure w rest (i + 1) - i = (firstFailure w rest (i + 1) - (i + 1)) + 1 := by
        omega
      rw [h2]
      simpa using h1

theorem abortIndex_le (w : World) : abortIndex w ≤ 14 := by
  have := firstFailure_le w scriptNeeds 0
  simpa [abortIndex, scriptNeeds] using this

/-- A call that fails is not before the abort. -/
theorem abortIndex_le_of_fails (w : World) (j : Nat)
    (h : callFails w j (scriptNeeds.getD j none) = true) : abortIndex w ≤ j := by
  by_contra hlt
  have := firstFailure_before w scriptNeeds 0 j (Nat.zero_le j) (by unfold abortIndex at hlt; omega)
  rw [Nat.sub_zero, h] at this
  exact absurd this (by decide)

/-- The call at which a run aborts fails. -/
theorem abortIndex_fails (w : World) (h : abortIndex w < 14) :
    callFails w (abortIndex w) (scriptNeeds.getD (abortIndex w) none) = true := by
  have := firstFailure_at w scriptNeeds 0 (by simpa [abortIndex, scriptNeeds] using h)
  simpa [abortIndex] using this

/-- The trace of any run is the trace of the canonical run that aborts at the
same moment. -/
theorem run_trace (w : World) (fs : FS) :
    (run w fs).trace = (run (failingAt (abortIndex w)) noFiles).trace := by
  by_cases h0 : callFails w 0 none = true
  · simp [abortIndex, firstFailure, scriptNeeds, run, main, bind, await, State.emit, State.write,
      chromium.launch, Browser.newContext, BrowserContext.newPage, Page.goto, Page.reload,
      Page.screenshot, Page.locator, Locator.first, Locator.screenshot, Locator.hover,
      Page.evaluate, Page.waitForTimeout, Browser.close, console.log, callFails_failingAt, *]
  by_cases h1 : callFails w 1 none = true
  · simp [abortIndex, firstFailure, scriptNeeds, run, main, bind, await, State.emit, State.write,
      chromium.launch, Browser.newContext, BrowserContext.newPage, Page.goto, Page.reload,
      Page.screenshot, Page.locator, Locator.first, Locator.screenshot, Locator.hover,
      Page.evaluate, Page.waitForTimeout, Browser.close, console.log, callFails_failingAt, *]
  by_cases h2 : callFails w 2 none = true
  · simp [abortIndex, firstFailure, scriptNeeds, run, main, bind, await, State.emit, State.write,
      chromium.launch, Browser.newContext, BrowserContext.newPage, Page.goto, Page.reload,
      Page.screenshot, Page.locator, Locator.first, Locator.screenshot, Locator.hover,
      Page.evaluate, Page.waitForTimeout, Browser.close, console.log, callFails_failingAt, *]
  by_cases h3 : callFails w 3 none = true
  · simp [abortIndex, firstFailure, scriptNeeds, run, main, bind, await, State.emit, State.write,
      chromium.launch, Browser.newContext, BrowserContext.newPage, Page.goto, Page.reload,
      Page.screenshot, Page.locator, Locator.first, Locator.screenshot, Locator.hover,
      Page.evaluate, Page.waitForTimeout, Browser.close, console.log, callFails_failingAt, *]
  by_cases h4 : callFails w 4 none = true
  · simp [abortIndex, firstFailure, scriptNeeds, run, main, bind, await, State.emit, State.write,
      chromium.launch, Browser.newContext, BrowserContext.newPage, Page.goto, Page.reload,
      Page.screenshot, Page.locator, Locator.first, Locator.screenshot, Locator.hover,
      Page.evaluate, Page.waitForTimeout, Browser.close, console.log, callFails_failingAt, *]
  by_cases h5 : callFails w 5 none = true
  · simp [abortIndex, firstFailure, scriptNeeds, run, main, bind, await, State.emit, State.write,
      chromium.launch, Browser.newContext, BrowserContext.newPage, Page.goto, Page.reload,
      Page.screenshot, Page.locator, Locator.first, Locator.screenshot, Locator.hover,
      Page.evaluate, Page.waitForTimeout, Browser.close, console.log, callFails_failingAt, *]
  by_cases h6 : callFails w 6 (some "nav") = true
  · simp [abortIndex, firstFailure, scriptNeeds, run, main, bind, await, State.emit, State.write,
      chromium.launch, Browser.newContext, BrowserContext.newPage, Page.goto, Page.reload,
      Page.screenshot, Page.locator, Locator.first, Locator.screenshot, Locator.hover,
      Page.evaluate, Page.waitForTimeout, Browser.close, console.log, callFails_failingAt, *]
  by_cases h7 : callFails w 7 none = true
  · simp [abortIndex, firstFailure, scriptNeeds, run, main, bind, await, State.emit, State.write,
      chromium.launch, Browser.newContext, BrowserContext.newPage, Page.goto, Page.reload,
      Page.screenshot, Page.locator, Locator.first, Locator.screenshot, Locator.hover,
      Page.evaluate, Page.waitForTimeout, Browser.close, console.log, callFails_failingAt, *]
  by_cases h8 : callFails w 8 none = true
  · simp [abortIndex, firstFailure, scriptNeeds, run, main, bind, await, State.emit, State.write,
      chromium.launch, Browser.newContext, BrowserContext.newPage, Page.goto, Page.reload,
      Page.screenshot, Page.locator, Locator.first, Locator.screenshot, Locator.hover,
      Page.evaluate, Page.waitForTimeout, Browser.close, console.log, callFails_failingAt, *]
  by_cases h9 : callFails w 9 (some ".services-grid") = true
  · simp [abortIndex, firstFailure, scriptNeeds, run, main, bind, await, State.emit, State.write,
      chromium.launch, Browser.newContext, BrowserContext.newPage, Page.goto, Page.reload,
      Page.screenshot, Page.locator, Locator.first, Locator.screenshot, Locator.hover,
      Page.evaluate, Page.waitForTimeout, Browser.close, console.log, callFails_failingAt, *]
  by_cases h10 : callFails w 10 (some ".service-card") = true
  · simp [abortIndex, firstFailure, scriptNeeds, run, main, bind, await, State.emit, State.write,
      chromium.launch, Browser.newContext, BrowserContext.newPage, Page.goto, Page.reload,
      Page.screenshot, Page.locator, Locator.first, Locator.screenshot, Locator.hover,
      Page.evaluate, Page.waitForTimeout, Browser.close, console.log, callFails_failingAt, *]
  by_cases h11 : callFails w 11 none = true
  · simp [abortIndex, firstFailure, scriptNeeds, run, main, bind, await, State.emit, State.write,
      chromium.launch, Browser.newContext, BrowserContext.newPage, Page.goto, Page.reload,
      Page.screenshot, Page.locator, Locator.first, Locator.screenshot, Locator.hover,
      Page.evaluate, Page.waitForTimeout, Browser.close, console.log, callFails_failingAt, *]
  by_cases h12 : callFails w 12 (some ".service-card") = true
  · simp [abortIndex, firstFailure, scriptNeeds, run, main, bind, await, State.emit, State.write,
      chromium.launch, Browser.newContext, BrowserContext.newPage, Page.goto, Page.reload,
      Page.screenshot, Page.locator, Locator.first, Locator.screenshot, Locator.hover,
      Page.evaluate, Page.waitForTimeout, Browser.close, console.log, callFails_failingAt, *]
  by_cases h13 : callFails w 13 none = true
  · simp [abortIndex, firstFailure, scriptNeeds, run, main, bind, await, State.emit, State.write,
      chromium.launch, Browser.newContext, BrowserContext.newPage, Page.goto, Page.reload,
      Page.screenshot, Page.locator, Locator.first, Locator.screenshot, Locator.hover,
      Page.evaluate, Page.waitForTimeout, Browser.close, console.log, callFails_failingAt, *]
  simp [abortIndex, firstFailure, scriptNeeds, run, main, bind, await, State.emit, State.write,
      chromium.launch, Browser.newContext, BrowserContext.newPage, Page.goto, Page.reload,
      Page.screenshot, Page.locator, Locator.first, Locator.screenshot, Locator.hover,
      Page.evaluate, Page.waitForTimeout, Browser.close, console.log, callFails_failingAt, *]

/-- The outcome of any run is the outcome of the canonical run that aborts at
the same moment. -/
theorem run_outcome (w : World) (fs : FS) :
    (run w fs).outcome = (run (failingAt (abortIndex w)) noFiles).outcome := by
  by_cases h0 : callFails w 0 none = true
  · simp [abortIndex, firstFailure, scriptNeeds, run, main, bind, await, State.emit, State.write,
      chromium.launch, Browser.newContext, BrowserContext.newPage, Page.goto, Page.reload,
      Page.screenshot, Page.locator, Locator.first, Locator.screenshot, Locator.hover,
      Page.evaluate, Page.waitForTimeout, Browser.close, console.log, callFails_failingAt, *]
  by_cases h1 : callFails w 1 none = true
  · simp [abortIndex, firstFailure, scriptNeeds, run, main, bind, await, State.emit, State.write,
      chromium.launch, Browser.newContext, BrowserContext.newPage, Page.goto, Page.reload,
      Page.screenshot, Page.locator, Locator.first, Locator.screenshot, Locator.hover,
      Page.evaluate, Page.waitForTimeout, Browser.close, console.log, callFails_failingAt, *]
  by_cases h2 : callFails w 2 none = true
  · simp [abortIndex, firstFailure, scriptNeeds, run, main, bind, await, State.emit, State.write,
      chromium.launch, Browser.newContext, BrowserContext.newPage, Page.goto, Page.reload,
      Page.screenshot, Page.locator, Locator.first, Locator.screenshot, Locator.hover,
      Page.evaluate, Page.waitForTimeout, Browser.close, console.log, callFails_failingAt, *]
  by_cases h3 : callFails w 3 none = true
  · simp [abortIndex, firstFailure, scriptNeeds, run, main, bind, await, State.emit, State.write,
      chromium.launch, Browser.newContext, BrowserContext.newPage, Page.goto, Page.reload,
      Page.screenshot, Page.locator, Locator.first, Locator.screenshot, Locator.hover,
      Page.evaluate, Page.waitForTimeout, Browser.close, console.log, callFails_failingAt, *]
  by_cases h4 : callFails w 4 none = true
  · simp [abortIndex, firstFailure, scriptNeeds, run, main, bind, await, State.emit, State.write,
      chromium.launch, Browser.newContext, BrowserContext.newPage, Page.goto, Page.reload,
      Page.screenshot, Page.locator, Locator.first, Locator.screenshot, Locator.hover,
      Page.evaluate, Page.waitForTimeout, Browser.close, console.log, callFails_failingAt, *]
  by_cases h5 : callFails w 5 none = true
  · simp [abortIndex, firstFailure, scriptNeeds, run, main, bind, await, State.emit, State.write,
      chromium.launch, Browser.newContext, BrowserContext.newPage, Page.goto, Page.reload,
      Page.screenshot, Page.locator, Locator.first, Locator.screenshot, Locator.hover,
      Page.evaluate, Page.waitForTimeout, Browser.close, console.log, callFails_failingAt, *]
  by_cases h6 : callFails w 6 (some "nav") = true
  · simp [abortIndex, firstFailure, scriptNeeds, run, main, bind, await, State.emit, State.write,
      chromium.launch, Browser.newContext, BrowserContext.newPage, Page.goto, Page.reload,
      Page.screenshot, Page.locator, Locator.first, Locator.screenshot, Locator.hover,
      Page.evaluate, Page.waitForTimeout, Browser.close, console.log, callFails_failingAt, *]
  by_cases h7 : callFails w 7 none = true
  · simp [abortIndex, firstFailure, scriptNeeds, run, main, bind, await, State.emit, State.write,
      chromium.launch, Browser.newContext, BrowserContext.newPage, Page.goto, Page.reload,
      Page.screenshot, Page.locator, Locator.first, Locator.screenshot, Locator.hover,
      Page.evaluate, Page.waitForTimeout, Browser.close, console.log, callFails_failingAt, *]
  by_cases h8 : callFails w 8 none = true
  · simp [abortIndex, firstFailure, scriptNeeds, run, main, bind, await, State.emit, State.write,
      chromium.launch, Browser.newContext, BrowserContext.newPage, Page.goto, Page.reload,
      Page.screenshot, Page.locator, Locator.first, Locator.screenshot, Locator.hover,
      Page.evaluate, Page.waitForTimeout, Browser.close, console.log, callFails_failingAt, *]
  by_cases h9 : callFails w 9 (some ".services-grid") = true
  · simp [abortIndex, firstFailure, scriptNeeds, run, main, bind, await, State.emit, State.write,
      chromium.launch, Browser.newContext, BrowserContext.newPage, Page.goto, Page.reload,
      Page.screenshot, Page.locator, Locator.first, Locator.screenshot, Locator.hover,
      Page.evaluate, Page.waitForTimeout, Browser.close, console.log, callFails_failingAt, *]
  by_cases h10 : callFails w 10 (some ".service-card") = true
  · simp [abortIndex, firstFailure, scriptNeeds, run, main, bind, await, State.emit, State.write,
      chromium.launch, Browser.newContext, BrowserContext.newPage, Page.goto, Page.reload,
      Page.screenshot, Page.locator, Locator.first, Locator.screenshot, Locator.hover,
      Page.evaluate, Page.waitForTimeout, Browser.close, console.log, callFails_failingAt, *]
  by_cases h11 : callFails w 11 none = true
  · simp [abortIndex, firstFailure, scriptNeeds, run, main, bind, await, State.emit, State.write,
      chromium.launch, Browser.newContext, BrowserContext.newPage, Page.goto, Page.reload,
      Page.screenshot, Page.locator, Locator.first, Locator.screenshot, Locator.hover,
      Page.evaluate, Page.waitForTimeout, Browser.close, console.log, callFails_failingAt, *]
  by_cases h12 : callFails w 12 (some ".service-card") = true
  · simp [abortIndex, firstFailure, scriptNeeds, run, main, bind, await, State.emit, State.write,
      chromium.launch, Browser.newContext, BrowserContext.newPage, Page.goto, Page.reload,
      Page.screenshot, Page.locator, Locator.first, Locator.screenshot, Locator.hover,
      Page.evaluate, Page.waitForTimeout, Browser.close, console.log, callFails_failingAt, *]
  by_cases h13 : callFails w 13 none = true
  · simp [abortIndex, firstFailure, scriptNeeds, run, main, bind, await, State.emit, State.write,
      chromium.launch, Browser.newContext, BrowserContext.newPage, Page.goto, Page.reload,
      Page.screenshot, Page.locator, Locator.first, Locator.screenshot, Locator.hover,
      Page.evaluate, Page.waitForTimeout, Browser.close, console.log, callFails_failingAt, *]
  simp [abortIndex, firstFailure, scriptNeeds, run, main, bind, await, State.emit, State.write,
      chromium.launch, Browser.newContext, BrowserContext.newPage, Page.goto, Page.reload,
      Page.screenshot, Page.locator, Locator.first, Locator.screenshot, Locator.hover,
      Page.evaluate, Page.waitForTimeout, Browser.close, console.log, callFails_failingAt, *]

/-- The filesystem a run leaves: each image stored by a screenshot call that
returned, everything else as found. -/
theorem run_fs (w : World) (fs : FS) (p : String) :
    (run w fs).fs p =
      if 12 < abortIndex w ∧ p = ".playwright-mcp/service-card-hover.png" then
        some (w.boxOf 12 ".service-card")
      else if 9 < abortIndex w ∧ p = ".playwright-mcp/service-cards.png" then
        some (w.boxOf 9 ".services-grid")
      else if 6 < abortIndex w ∧ p = ".playwright-mcp/navbar-glassmorphism.png" then
        some (w.boxOf 6 "nav")
      else if 5 < abortIndex w ∧ p = ".playwright-mcp/hero-section-full.png" then
        some { width := 1920, height := 1080 }
      else fs p := by
  by_cases h0 : callFails w 0 none = true
  · simp [abortIndex, firstFailure, scriptNeeds, run, main, bind, await, State.emit, State.write,
      chromium.launch, Browser.newContext, BrowserContext.newPage, Page.goto, Page.reload,
      Page.screenshot, Page.locator, Locator.first, Locator.screenshot, Locator.hover,
      Page.evaluate, Page.waitForTimeout, Browser.close, console.log, callFails_failingAt, *]
  by_cases h1 : callFails w 1 none = true
  · simp [abortIndex, firstFailure, scriptNeeds, run, main, bind, await, State.emit, State.write,
      chromium.launch, Browser.newContext, BrowserContext.newPage, Page.goto, Page.reload,
      Page.screenshot, Page.locator, Locator.first, Locator.screenshot, Locator.hover,
      Page.evaluate, Page.waitForTimeout, Browser.close, console.log, callFails_failingAt, *]
  by_cases h2 : callFails w 2 none = true
  · simp [abortIndex, firstFailure, scriptNeeds, run, main, bind, await, State.emit, State.write,
      chromium.launch, Browser.newContext, BrowserContext.newPage, Page.goto, Page.reload,
      Page.screenshot, Page.locator, Locator.first, Locator.screenshot, Locator.hover,
      Page.evaluate, Page.waitForTimeout, Browser.close, console.log, callFails_failingAt, *]
  by_cases h3 : callFails w 3 none = true
  · simp [abortIndex, firstFailure, scriptNeeds, run, main, bind, await, State.emit, State.write,
      chromium.launch, Browser.newContext, BrowserContext.newPage, Page.goto, Page.reload,
      Page.screenshot, Page.locator, Locator.first, Locator.screenshot, Locator.hover,
      Page.evaluate, Page.waitForTimeout, Browser.close, console.log, callFails_failingAt, *]
  by_cases h4 : callFails w 4 none = true
  · simp [abortIndex, firstFailure, scriptNeeds, run, main, bind, await, State.emit, State.write,
      chromium.launch, Browser.newContext, BrowserContext.newPage, Page.goto, Page.reload,
      Page.screenshot, Page.locator, Locator.first, Locator.screenshot, Locator.hover,
      Page.evaluate, Page.waitForTimeout, Browser.close, console.log, callFails_failingAt, *]
  by_cases h5 : callFails w 5 none = true
  · simp [abortIndex, firstFailure, scriptNeeds, run, main, bind, await, State.emit, State.write,
      chromium.launch, Browser.newContext, BrowserContext.newPage, Page.goto, Page.reload,
      Page.screenshot, Page.locator, Locator.first, Locator.screenshot, Locator.hover,
      Page.evaluate, Page.waitForTimeout, Browser.close, console.log, callFails_failingAt, *]
  by_cases h6 : callFails w 6 (some "nav") = true
  · simp [abortIndex, firstFailure, scriptNeeds, run, main, bind, await, State.emit, State.write,
      chromium.launch, Browser.newContext, BrowserContext.newPage, Page.goto, Page.reload,
      Page.screenshot, Page.locator, Locator.first, Locator.screenshot, Locator.hover,
      Page.evaluate, Page.waitForTimeout, Browser.close, console.log, callFails_failingAt, *]
  by_cases h7 : callFails w 7 none = true
  · simp [abortIndex, firstFailure, scriptNeeds, run, main, bind, await, State.emit, State.write,
      chromium.launch, Browser.newContext, BrowserContext.newPage, Page.goto, Page.reload,
      Page.screenshot, Page.locator, Locator.first, Locator.screenshot, Locator.hover,
      Page.evaluate, Page.waitForTimeout, Browser.close, console.log, callFails_failingAt, *]
  by_cases h8 : callFails w 8 none = true
  · simp [abortIndex, firstFailure, scriptNeeds, run, main, bind, await, State.emit, State.write,
      chromium.launch, Browser.newContext, BrowserContext.newPage, Page.goto, Page.reload,
      Page.screenshot, Page.locator, Locator.first, Locator.screenshot, Locator.hover,
      Page.evaluate, Page.waitForTimeout, Browser.close, console.log, callFails_failingAt, *]
  by_cases h9 : callFails w 9 (some ".services-grid") = true
  · simp [abortIndex, firstFailure, scriptNeeds, run, main, bind, await, State.emit, State.write,
      chromium.launch, Browser.newContext, BrowserContext.newPage, Page.goto, Page.reload,
      Page.screenshot, Page.locator, Locator.first, Locator.screenshot, Locator.hover,
      Page.evaluate, Page.waitForTimeout, Browser.close, console.log, callFails_failingAt, *]
  by_cases h10 : callFails w 10 (some ".service-card") = true
  · simp [abortIndex, firstFailure, scriptNeeds, run, main, bind, await, State.emit, State.write,
      chromium.launch, Browser.newContext, BrowserContext.newPage, Page.goto, Page.reload,
      Page.screenshot, Page.locator, Locator.first, Locator.screenshot, Locator.hover,
      Page.evaluate, Page.waitForTimeout, Browser.close, console.log, callFails_failingAt, *]
  by_cases h11 : callFails w 11 none = true
  · simp [abortIndex, firstFailure, scriptNeeds, run, main, bind, await, State.emit, State.write,
      chromium.launch, Browser.newContext, BrowserContext.newPage, Page.goto, Page.reload,
      Page.screenshot, Page.locator, Locator.first, Locator.screenshot, Locator.hover,
      Page.evaluate, Page.waitForTimeout, Browser.close, console.log, callFails_failingAt, *]
  by_cases h12 : callFails w 12 (some ".service-card") = true
  · simp [abortIndex, firstFailure, scriptNeeds, run, main, bind, await, State.emit, State.write,
      chromium.launch, Browser.newContext, BrowserContext.newPage, Page.goto, Page.reload,
      Page.screenshot, Page.locator, Locator.first, Locator.screenshot, Locator.hover,
      Page.evaluate, Page.waitForTimeout, Browser.close, console.log, callFails_failingAt, *]
  by_cases h13 : callFails w 13 none = true
  · simp [abortIndex, firstFailure, scriptNeeds, run, main, bind, await, State.emit, State.write,
      chromium.launch, Browser.newContext, BrowserContext.newPage, Page.goto, Page.reload,
      Page.screenshot, Page.locator, Locator.first, Locator.screenshot, Locator.hover,
      Page.evaluate, Page.waitForTimeout, Browser.close, console.log, callFails_failingAt, *]
  simp [abortIndex, firstFailure, scriptNeeds, run, main, bind, await, State.emit, State.write,
      chromium.launch, Browser.newContext, BrowserContext.newPage, Page.goto, Page.reload,
      Page.screenshot, Page.locator, Locator.first, Locator.screenshot, Locator.hover,
      Page.evaluate, Page.waitForTimeout, Browser.close, console.log, callFails_failingAt, *]

/-- The page-side effects of a run: the scroll, when the evaluate call returned
and found the grid. -/
theorem run_pageEffects (w : World) (fs : FS) :
    (run w fs).pageEffects =
      if 7 < abortIndex w ∧ (w.first 7 ".services-grid").isSome = true then
        [(7, DomEffect.scrollIntoView ".services-grid" "smooth" "center")]
      else [] := by
  by_cases h0 : callFails w 0 none = true
  · simp [abortIndex, firstFailure, scriptNeeds, run, main, bind, await, State.emit, State.write,
      chromium.launch, Browser.newContext, BrowserContext.newPage, Page.goto, Page.reload,
      Page.screenshot, Page.locator, Locator.first, Locator.screenshot, Locator.hover,
      Page.evaluate, Page.waitForTimeout, Browser.close, console.log, callFails_failingAt, Element.scrollIntoView, *]
  by_cases h1 : callFails w 1 none = true
  · simp [abortIndex, firstFailure, scriptNeeds, run, main, bind, await, State.emit, State.write,
      chromium.launch, Browser.newContext, BrowserContext.newPage, Page.goto, Page.reload,
      Page.screenshot, Page.locator, Locator.first, Locator.screenshot, Locator.hover,
      Page.evaluate, Page.waitForTimeout, Browser.close, console.log, callFails_failingAt, Element.scrollIntoView, *]
  by_cases h2 : callFails w 2 none = true
  · simp [abortIndex, firstFailure, scriptNeeds, run, main, bind, await, State.emit, State.write,
      chromium.launch, Browser.newContext, BrowserContext.newPage, Page.goto, Page.reload,
      Page.screenshot, Page.locator, Locator.first, Locator.screenshot, Locator.hover,
      Page.evaluate, Page.waitForTimeout, Browser.close, console.log, callFails_failingAt, Element.scrollIntoView, *]
  by_cases h3 : callFails w 3 none = true
  · simp [abortIndex, firstFailure, scriptNeeds, run, main, bind, await, State.emit, State.write,
      chromium.launch, Browser.newContext, BrowserContext.newPage, Page.goto, Page.reload,
      Page.screenshot, Page.locator, Locator.first, Locator.screenshot, Locator.hover,
      Page.evaluate, Page.waitForTimeout, Browser.close, console.log, callFails_failingAt, Element.scrollIntoView, *]
  by_cases h4 : callFails w 4 none = true
  · simp [abortIndex, firstFailure, scriptNeeds, run, main, bind, await, State.emit, State.write,
      chromium.launch, Browser.newContext, BrowserContext.newPage, Page.goto, Page.reload,
      Page.screenshot, Page.locator, Locator.first, Locator.screenshot, Locator.hover,
      Page.evaluate, Page.waitForTimeout, Browser.close, console.log, callFails_failingAt, Element.scrollIntoView, *]
  by_cases h5 : callFails w 5 none = true
  · simp [abortIndex, firstFailure, scriptNeeds, run, main, bind, await, State.emit, State.write,
      chromium.launch, Browser.newContext, BrowserContext.newPage, Page.goto, Page.reload,
      Page.screenshot, Page.locator, Locator.first, Locator.screenshot, Locator.hover,
      Page.evaluate, Page.waitForTimeout, Browser.close, console.log, callFails_failingAt, Element.scrollIntoView, *]
  by_cases h6 : callFails w 6 (some "nav") = true
  · simp [abortIndex, firstFailure, scriptNeeds, run, main, bind, await, State.emit, State.write,
      chromium.launch, Browser.newContext, BrowserContext.newPage, Page.goto, Page.reload,
      Page.screenshot, Page.locator, Locator.first, Locator.screenshot, Locator.hover,
      Page.evaluate, Page.waitForTimeout, Browser.close, console.log, callFails_failingAt, Element.scrollIntoView, *]
  by_cases h7 : callFails w 7 none = true
  · simp [abortIndex, firstFailure, scriptNeeds, run, main, bind, await, State.emit, State.write,
      chromium.launch, Browser.newContext, BrowserContext.newPage, Page.goto, Page.reload,
      Page.screenshot, Page.locator, Locator.first, Locator.screenshot, Locator.hover,
      Page.evaluate, Page.waitForTimeout, Browser.close, console.log, callFails_failingAt, Element.scrollIntoView, *]
  by_cases h8 : callFails w 8 none = true
  · simp [abortIndex, firstFailure, scriptNeeds, run, main, bind, await, State.emit, State.write,
      chromium.launch, Browser.newContext, BrowserContext.newPage, Page.goto, Page.reload,
      Page.screenshot, Page.locator, Locator.first, Locator.screenshot, Locator.hover,
      Page.evaluate, Page.waitForTimeout, Browser.close, console.log, callFails_failingAt, Element.scrollIntoView, *]
    cases w.first 7 ".services-grid" <;> simp
  by_cases h9 : callFails w 9 (some ".services-grid") = true
  · simp [abortIndex, firstFailure, scriptNeeds, run, main, bind, await, State.emit, State.write,
      chromium.launch, Browser.newContext, BrowserContext.newPage, Page.goto, Page.reload,
      Page.screenshot, Page.locator, Locator.first, Locator.screenshot, Locator.hover,
      Page.evaluate, Page.waitForTimeout, Browser.close, console.log, callFails_failingAt, Element.scrollIntoView, *]
    cases w.first 7 ".services-grid" <;> simp
  by_cases h10 : callFails w 10 (some ".service-card") = true
  · simp [abortIndex, firstFailure, scriptNeeds, run, main, bind, await, State.emit, State.write,
      chromium.launch, Browser.newContext, BrowserContext.newPage, Page.goto, Page.reload,
      Page.screenshot, Page.locator, Locator.first, Locator.screenshot, Locator.hover,
      Page.evaluate, Page.waitForTimeout, Browser.close, console.log, callFails_failingAt, Element.scrollIntoView, *]
    cases w.first 7 ".services-grid" <;> simp
  by_cases h11 : callFails w 11 none = true
  · simp [abortIndex, firstFailure, scriptNeeds, run, main, bind, await, State.emit, State.write,
      chromium.launch, Browser.newContext, BrowserContext.newPage, Page.goto, Page.reload,
      Page.screenshot, Page.locator, Locator.first, Locator.screenshot, Locator.hover,
      Page.evaluate, Page.waitForTimeout, Browser.close, console.log, callFails_failingAt, Element.scrollIntoView, *]
    cases w.first 7 ".services-grid" <;> simp
  by_cases h12 : callFails w 12 (some ".service-card") = true
  · simp [abortIndex, firstFailure, scriptNeeds, run, main, bind, await, State.emit, State.write,
      chromium.launch, Browser.newContext, BrowserContext.newPage, Page.goto, Page.reload,
      Page.screenshot, Page.locator, Locator.first, Locator.screenshot, Locator.hover,
      Page.evaluate, Page.waitForTimeout, Browser.close, console.log, callFails_failingAt, Element.scrollIntoView, *]
    cases w.first 7 ".services-grid" <;> simp
  by_cases h13 : callFails w 13 none = true
  · simp [abortIndex, firstFailure, scriptNeeds, run, main, bind, await, State.emit, State.write,
      chromium.launch, Browser.newContext, BrowserContext.newPage, Page.goto, Page.reload,
      Page.screenshot, Page.locator, Locator.first, Locator.screenshot, Locator.hover,
      Page.evaluate, Page.waitForTimeout, Browser.close, console.log, callFails_failingAt, Element.scrollIntoView, *]
    cases w.first 7 ".services-grid" <;> simp
  simp [abortIndex, firstFailure, scriptNeeds, run, main, bind, await, State.emit, State.write,
      chromium.launch, Browser.newContext, BrowserContext.newPage, Page.goto, Page.reload,
      Page.screenshot, Page.locator, Locator.first, Locator.screenshot, Locator.hover,
      Page.evaluate, Page.waitForTimeout, Browser.close, console.log, callFails_failingAt, Element.scrollIntoView, *]
  cases w.first 7 ".services-grid" <;> simp

/-- A run in which no call threw did not abort. -/
theorem abortIndex_of_no_throw (w : World) (fs : FS) (h : thrown (run w fs).trace = []) :
    abortIndex w = 14 := by
  have hk := abortIndex_le w
  rw [run_trace w fs] at h
  generalize abortIndex w = k at h hk
  interval_cases k <;> first | rfl | exact absurd h (by decide)

/-! ## The claims -/

/-- C1: in every run in which no library call fails, the library calls issued
are exactly the fourteen calls launch, newContext (1920 by 1080), newPage, goto,
reload, page screenshot (image A), screenshot of the first nav (image B),
evaluate, waitForTimeout 1000, screenshot of the first services grid (image C),
hover on the first service card, waitForTimeout 500, screenshot of that same
locator (image D), close, in this order; the whole trace shows every call
returning before the next one is issued, image C written before the hover is
issued, and image D written after the hover and its 500 ms delay returned; and
the page function of the evaluate call (the call issued at moment 7) scrolls
the first element matching the services-grid selector into view, smoothly, to
the center of the block, and has no other effect on the page. -/
theorem C1_call_sequence (w : World) (fs : FS) (h : thrown (run w fs).trace = []) :
    callsIssued (run w fs).trace =
      [Call.launch true,
       Call.newContext (Size.mk 1920 1080),
       Call.newPage,
       Call.goto "http://localhost:8082" "networkidle",
       Call.reload "networkidle",
       Call.pageScreenshot ".playwright-mcp/hero-section-full.png" false,
       Call.locatorScreenshot (Locator.mk "nav" true) ".playwright-mcp/navbar-glassmorphism.png",
       Call.evaluate,
       Call.waitForTimeout 1000,
       Call.locatorScreenshot (Locator.mk ".services-grid" true) ".playwright-mcp/service-cards.png",
       Call.hover (Locator.mk ".service-card" true),
       Call.waitForTimeout 500,
       Call.locatorScreenshot (Locator.mk ".service-card" true)
         ".playwright-mcp/service-card-hover.png",
       Call.close] ∧
    (run w fs).trace =
      [Event.called (Call.launch true),
       Event.returned (Call.launch true),
       Event.called (Call.newContext (Size.mk 1920 1080)),
       Event.returned (Call.newContext (Size.mk 1920 1080)),
       Event.called Call.newPage,
       Event.returned Call.newPage,
       Event.called (Call.goto "http://localhost:8082" "networkidle"),
       Event.returned (Call.goto "http://localhost:8082" "networkidle"),
       Event.called (Call.reload "networkidle"),
       Event.returned (Call.reload "networkidle"),
       Event.printed "Page loaded successfully",
       Event.called (Call.pageScreenshot ".playwright-mcp/hero-section-full.png" false),
       Event.wrote ".playwright-mcp/hero-section-full.png",
       Event.returned (Call.pageScreenshot ".playwright-mcp/hero-section-full.png" false),
       Event.printed "Hero section screenshot saved",
       Event.called
         (Call.locatorScreenshot (Locator.mk "nav" true) ".playwright-mcp/navbar-glassmorphism.png"),
       Event.wrote ".playwright-mcp/navbar-glassmorphism.png",
       Event.returned
         (Call.locatorScreenshot (Locator.mk "nav" true) ".playwright-mcp/navbar-glassmorphism.png"),
       Event.printed "Navbar screenshot saved",
       Event.called Call.evaluate,
       Event.returned Call.evaluate,
       Event.called (Call.waitForTimeout 1000),
       Event.returned (Call.waitForTimeout 1000),
       Event.called
         (Call.locatorScreenshot (Locator.mk ".services-grid" true)
           ".playwright-mcp/service-cards.png"),
       Event.wrote ".playwright-mcp/service-cards.png",
       Event.returned
         (Call.locatorScreenshot (Locator.mk ".services-grid" true)
           ".playwright-mcp/service-cards.png"),
       Event.printed "Service cards screenshot saved",
       Event.called (Call.hover (Locator.mk ".service-card" true)),
       Event.returned (Call.hover (Locator.mk ".service-card" true)),
       Event.called (Call.waitForTimeout 500),
       Event.returned (Call.waitForTimeout 500),
       Event.called
         (Call.locatorScreenshot (Locator.mk ".service-card" true)
           ".playwright-mcp/service-card-hover.png"),
       Event.wrote ".playwright-mcp/service-card-hover.png",
       Event.returned
         (Call.locatorScreenshot (Locator.mk ".service-card" true)
           ".playwright-mcp/service-card-hover.png"),
       Event.printed "Service card hover screenshot saved",
       Event.called Call.close,
       Event.returned Call.close,
       Event.printed "All screenshots captured successfully!"] ∧
    (run w fs).pageEffects =
      (match w.first 7 ".services-grid" with
        | some _ => [(7, DomEffect.scrollIntoView ".services-grid" "smooth" "center")]
        | none => []) := by
  have hk := abortIndex_of_no_throw w fs h
  rw [run_pageEffects, run_trace w fs, hk]
  refine ⟨by decide, by decide, ?_⟩
  cases w.first 7 ".services-grid" <;> simp

/-- C1 applies to the run in a world where nothing fails, from an empty
filesystem. -/
theorem C1_call_sequence_witness :
    thrown (run (failingAt 14) noFiles).trace = [] ∧
    (callsIssued (run (failingAt 14) noFiles).trace).length = 14 ∧
    (run (failingAt 14) noFiles).pageEffects =
      [(7, DomEffect.scrollIntoView ".services-grid" "smooth" "center")] :=
  ⟨by decide, by rw [(C1_call_sequence (failingAt 14) noFiles (by decide)).1]; rfl,
    (C1_call_sequence (failingAt 14) noFiles (by decide)).2.2⟩

/-- C2: in every run in which no library call fails, the paths written are
exactly the four fixed paths, each written once, and every other path of the
filesystem is left as it was; afterwards a file is present at each of the
four. -/
theorem C2_paths_written (w : World) (fs : FS) (h : thrown (run w fs).trace = []) :
    filesWritten (run w fs).trace =
      [".playwright-mcp/hero-section-full.png", ".playwright-mcp/navbar-glassmorphism.png",
       ".playwright-mcp/service-cards.png", ".playwright-mcp/service-card-hover.png"] ∧
    (∀ p, p ∉ [".playwright-mcp/hero-section-full.png", ".playwright-mcp/navbar-glassmorphism.png",
        ".playwright-mcp/service-cards.png", ".playwright-mcp/service-card-hover.png"] →
      (run w fs).fs p = fs p) ∧
    (∀ p, p ∈ [".playwright-mcp/hero-section-full.png", ".playwright-mcp/navbar-glassmorphism.png",
        ".playwright-mcp/service-cards.png", ".playwright-mcp/service-card-hover.png"] →
      ((run w fs).fs p).isSome = true) := by
  have hk := abortIndex_of_no_throw w fs h
  refine ⟨?_, ?_, ?_⟩
  · rw [run_trace w fs, hk]
    decide
  · intro p hp
    simp only [List.mem_cons, List.mem_singleton, List.not_mem_nil, or_false, not_or] at hp
    rw [run_fs, hk]
    simp [hp.1, hp.2.1, hp.2.2.1, hp.2.2.2]
  · intro p hp
    simp only [List.mem_cons, List.mem_singleton, List.not_mem_nil, or_false] at hp
    rw [run_fs, hk]
    rcases hp with hp | hp | hp | hp <;> subst hp <;> simp

/-- C2 applies to the run in a world where nothing fails, from an empty
filesystem. -/
theorem C2_paths_written_witness :
    thrown (run (failingAt 14) noFiles).trace = [] ∧
    (filesWritten (run (failingAt 14) noFiles).trace).length = 4 :=
  ⟨by decide, by rw [(C2_paths_written (failingAt 14) noFiles (by decide)).1]; rfl⟩

/-- C4: in every run in which the initial navigation (goto) throws, the run is
rejected with that call's error, no file is written, no progress line is
printed, and the filesystem is left as it was. -/
theorem C4_goto_fails (w : World) (fs : FS)
    (h : Event.threw (Call.goto "http://localhost:8082" "networkidle") ∈ (run w fs).trace) :
    (run w fs).outcome = Outcome.rejected (Call.goto "http://localhost:8082" "networkidle") ∧
    filesWritten (run w fs).trace = [] ∧
    stdout (run w fs).trace = [] ∧
    (∀ p, (run w fs).fs p = fs p) := by
  have hk := abortIndex_le w
  have hk3 : abortIndex w = 3 := by
    rw [run_trace w fs] at h
    generalize abortIndex w = k at h hk
    interval_cases k <;> first | rfl | exact absurd h (by decide)
  refine ⟨?_, ?_, ?_, ?_⟩
  · rw [run_outcome w fs, hk3]; decide
  · rw [run_trace w fs, hk3]; decide
  · rw [run_trace w fs, hk3]; decide
  · intro p
    rw [run_fs, hk3]
    simp

/-- C4 applies to the run in a world where the goto call (moment 3) fails. -/
theorem C4_goto_fails_witness :
    Event.threw (Call.goto "http://localhost:8082" "networkidle") ∈
      (run (failingAt 3) noFiles).trace ∧
    (run (failingAt 3) noFiles).outcome =
      Outcome.rejected (Call.goto "http://localhost:8082" "networkidle") :=
  ⟨by decide, (C4_goto_fails (failingAt 3) noFiles (by decide)).1⟩

/-- C3, as stated, fails on two pages that load, contain a `nav` element and
have nothing matching `.services-grid`.  In `heroCaptureFails` the page
screenshot fails, and neither image A nor image B is written.  In
`collapsedNav` the `nav` element has an empty box, its screenshot throws, and
image B is not written. -/
theorem C3_counterexample :
    ((∀ i, i < 5 → heroCaptureFails.fault i = false) ∧
      (∀ i, (heroCaptureFails.first i "nav").isSome = true) ∧
      (∀ i, heroCaptureFails.first i ".services-grid" = none) ∧
      Event.returned (Call.reload "networkidle") ∈ (run heroCaptureFails noFiles).trace ∧
      filesWritten (run heroCaptureFails noFiles).trace = []) ∧
    ((∀ i, collapsedNav.fault i = false) ∧
      (∀ i, (collapsedNav.first i "nav").isSome = true) ∧
      (∀ i, collapsedNav.first i ".services-grid" = none) ∧
      Event.returned (Call.reload "networkidle") ∈ (run collapsedNav noFiles).trace ∧
      filesWritten (run collapsedNav noFiles).trace = [".playwright-mcp/hero-section-full.png"] ∧
      (run collapsedNav noFiles).outcome =
        Outcome.rejected
          (Call.locatorScreenshot (Locator.mk "nav" true)
            ".playwright-mcp/navbar-glassmorphism.png")) := by
  refine ⟨⟨?_, fun _ => by simp [heroCaptureFails, noServicesGrid],
      fun _ => by simp [heroCaptureFails, noServicesGrid], by decide, by decide⟩,
    ⟨fun _ => rfl, fun _ => by simp [collapsedNav], fun _ => by simp [collapsedNav],
      by decide, by decide, by decide⟩⟩
  intro i hi
  simp only [heroCaptureFails, beq_eq_false_iff_ne, ne_eq]
  omega

/-- C3, amended: in every run in which no call fails for a reason other than a
missing or invisible element, `nav` matches a visible element and
`.services-grid` matches none, the run is rejected (by the services-grid
screenshot), images A and B have been written and are present, and images C and
D have not been written. -/
theorem C3_grid_missing (w : World) (fs : FS)
    (hfault : ∀ i, w.fault i = false)
    (hnav : ∀ i, w.actionable i "nav" = true)
    (hgrid : ∀ i, w.first i ".services-grid" = none) :
    (run w fs).outcome =
      Outcome.rejected
        (Call.locatorScreenshot (Locator.mk ".services-grid" true)
          ".playwright-mcp/service-cards.png") ∧
    filesWritten (run w fs).trace =
      [".playwright-mcp/hero-section-full.png", ".playwright-mcp/navbar-glassmorphism.png"] ∧
    ((run w fs).fs ".playwright-mcp/hero-section-full.png").isSome = true ∧
    ((run w fs).fs ".playwright-mcp/navbar-glassmorphism.png").isSome = true ∧
    ".playwright-mcp/service-cards.png" ∉ filesWritten (run w fs).trace ∧
    ".playwright-mcp/service-card-hover.png" ∉ filesWritten (run w fs).trace ∧
    (run w fs).fs ".playwright-mcp/service-cards.png" = fs ".playwright-mcp/service-cards.png" ∧
    (run w fs).fs ".playwright-mcp/service-card-hover.png" =
      fs ".playwright-mcp/service-card-hover.png" := by
  have hg9 : w.actionable 9 ".services-grid" = false := by
    simp [World.actionable, hgrid]
  have hk : abortIndex w = 9 := by
    simp [abortIndex, firstFailure, scriptNeeds, callFails, hfault, hg9, hnav]
  refine ⟨?_, ?_, ?_, ?_, ?_, ?_, ?_, ?_⟩
  · rw [run_outcome w fs, hk]; decide
  · rw [run_trace w fs, hk]; decide
  · rw [run_fs, hk]; simp
  · rw [run_fs, hk]; simp
  · rw [run_trace w fs, hk]; decide
  · rw [run_trace w fs, hk]; decide
  · rw [run_fs, hk]; simp
  · rw [run_fs, hk]; simp

/-- C3 (amended) applies to the run in the world `noServicesGrid`. -/
theorem C3_grid_missing_witness :
    (∀ i, noServicesGrid.fault i = false) ∧
    (∀ i, noServicesGrid.actionable i "nav" = true) ∧
    (∀ i, noServicesGrid.first i ".services-grid" = none) ∧
    filesWritten (run noServicesGrid noFiles).trace =
      [".playwright-mcp/hero-section-full.png", ".playwright-mcp/navbar-glassmorphism.png"] :=
  ⟨fun _ => rfl, fun _ => by simp [noServicesGrid, World.actionable, Rendering.visible],
    fun _ => by simp [noServicesGrid],
    (C3_grid_missing noServicesGrid noFiles (fun _ => rfl)
      (fun _ => by simp [noServicesGrid, World.actionable, Rendering.visible])
      (fun _ => by simp [noServicesGrid])).2.1⟩

/-- C5, as stated, fails: in the successful run from an empty filesystem only
six lines are printed, not one per step of the twelve, and no line is printed
between the return of goto (step 2) and the issuing of reload (step 3). -/
theorem C5_counterexample :
    thrown (run (failingAt 14) noFiles).trace = [] ∧
    (stdout (run (failingAt 14) noFiles).trace).length = 6 ∧
    printedBetween (run (failingAt 14) noFiles).trace
      (Call.goto "http://localhost:8082" "networkidle") (Call.reload "networkidle") = false := by
  decide

/-- C5, amended: in every run in which no library call fails, exactly six
progress lines are printed, one after each of six milestones: after the reload
returned, after each of the four captures returned, and after close returned
(the last event of the run).  No line is printed after launch, newContext,
newPage, goto, evaluate, the 1000 ms delay, hover or the 500 ms delay. -/
theorem C5_progress_lines (w : World) (fs : FS) (h : thrown (run w fs).trace = []) :
    stdout (run w fs).trace =
      ["Page loaded successfully", "Hero section screenshot saved", "Navbar screenshot saved",
       "Service cards screenshot saved", "Service card hover screenshot saved",
       "All screenshots captured successfully!"] ∧
    printedBetween (run w fs).trace (Call.reload "networkidle")
      (Call.pageScreenshot ".playwright-mcp/hero-section-full.png" false) = true ∧
    printedBetween (run w fs).trace
      (Call.pageScreenshot ".playwright-mcp/hero-section-full.png" false)
      (Call.locatorScreenshot (Locator.mk "nav" true) ".playwright-mcp/navbar-glassmorphism.png")
      = true ∧
    printedBetween (run w fs).trace
      (Call.locatorScreenshot (Locator.mk "nav" true) ".playwright-mcp/navbar-glassmorphism.png")
      Call.evaluate = true ∧
    printedBetween (run w fs).trace
      (Call.locatorScreenshot (Locator.mk ".services-grid" true) ".playwright-mcp/service-cards.png")
      (Call.hover (Locator.mk ".service-card" true)) = true ∧
    printedBetween (run w fs).trace
      (Call.locatorScreenshot (Locator.mk ".service-card" true)
        ".playwright-mcp/service-card-hover.png")
      Call.close = true ∧
    (run w fs).trace.getLast? = some (Event.printed "All screenshots captured successfully!") ∧
    printedBetween (run w fs).trace (Call.launch true) (Call.newContext (Size.mk 1920 1080))
      = false ∧
    printedBetween (run w fs).trace (Call.newContext (Size.mk 1920 1080)) Call.newPage = false ∧
    printedBetween (run w fs).trace Call.newPage (Call.goto "http://localhost:8082" "networkidle")
      = false ∧
    printedBetween (run w fs).trace (Call.goto "http://localhost:8082" "networkidle")
      (Call.reload "networkidle") = false ∧
    printedBetween (run w fs).trace Call.evaluate (Call.waitForTimeout 1000) = false ∧
    printedBetween (run w fs).trace (Call.waitForTimeout 1000)
      (Call.locatorScreenshot (Locator.mk ".services-grid" true) ".playwright-mcp/service-cards.png")
      = false ∧
    printedBetween (run w fs).trace (Call.hover (Locator.mk ".service-card" true))
      (Call.waitForTimeout 500) = false ∧
    printedBetween (run w fs).trace (Call.waitForTimeout 500)
      (Call.locatorScreenshot (Locator.mk ".service-card" true)
        ".playwright-mcp/service-card-hover.png") = false := by
  have hk := abortIndex_of_no_throw w fs h
  rw [run_trace w fs, hk]
  decide

/-- C5 (amended) applies to the run in a world where nothing fails. -/
theorem C5_progress_lines_witness :
    thrown (run (failingAt 14) noFiles).trace = [] ∧
    (run (failingAt 14) noFiles).trace.getLast? =
      some (Event.printed "All screenshots captured successfully!") :=
  ⟨by decide, (C5_progress_lines (failingAt 14) noFiles (by decide)).2.2.2.2.2.2.1⟩

/-- C6, as stated, fails: when `.services-grid` matches nothing (and nothing
else goes wrong) the scroll step does not throw, the 1000 ms delay is started
and completes, and the call that throws is the services-grid screenshot. -/
theorem C6_counterexample :
    (∀ i, noServicesGrid.first i ".services-grid" = none) ∧
    Event.threw Call.evaluate ∉ (run noServicesGrid noFiles).trace ∧
    Event.returned Call.evaluate ∈ (run noServicesGrid noFiles).trace ∧
    Event.called (Call.waitForTimeout 1000) ∈ (run noServicesGrid noFiles).trace ∧
    Event.returned (Call.waitForTimeout 1000) ∈ (run noServicesGrid noFiles).trace ∧
    (run noServicesGrid noFiles).outcome =
      Outcome.rejected
        (Call.locatorScreenshot (Locator.mk ".services-grid" true)
          ".playwright-mcp/service-cards.png") := by
  refine ⟨fun _ => by simp [noServicesGrid], ?_, ?_, ?_, ?_, ?_⟩ <;> decide

/-- C6, amended: for each of the three selectors, if it matches no element,
then the first locator action on it (the screenshot of `nav`, the screenshot of
`.services-grid`, the hover on `.service-card`), once issued, throws, the run
is rejected by that call and nothing is executed after it.  The scroll step is
guarded against a missing `.services-grid`: once the evaluate call is issued
(moment 7), unless the world makes it fail for another reason, it returns
without throwing and without scrolling, and the 1000 ms delay is started
(moment 8); unless the world makes the delay fail, it completes and the
services-grid screenshot is issued, which is the call that throws. -/
theorem C6_missing_selector (w : World) (fs : FS) (sel : String) (action : Call)
    (hsel : (sel, action) ∈
      [("nav", Call.locatorScreenshot (Locator.mk "nav" true)
          ".playwright-mcp/navbar-glassmorphism.png"),
       (".services-grid", Call.locatorScreenshot (Locator.mk ".services-grid" true)
          ".playwright-mcp/service-cards.png"),
       (".service-card", Call.hover (Locator.mk ".service-card" true))])
    (habsent : ∀ i, w.first i sel = none) :
    (Event.called action ∈ (run w fs).trace →
      (run w fs).outcome = Outcome.rejected action ∧
      (run w fs).trace.getLast? = some (Event.threw action)) ∧
    (sel = ".services-grid" → Event.called Call.evaluate ∈ (run w fs).trace →
      w.fault 7 = false →
      Event.threw Call.evaluate ∉ (run w fs).trace ∧
      Event.returned Call.evaluate ∈ (run w fs).trace ∧
      (run w fs).pageEffects = [] ∧
      Event.called (Call.waitForTimeout 1000) ∈ (run w fs).trace ∧
      (w.fault 8 = false →
        Event.returned (Call.waitForTimeout 1000) ∈ (run w fs).trace ∧
        (run w fs).outcome = Outcome.rejected action ∧
        (run w fs).trace.getLast? = some (Event.threw action))) := by
  have hk := abortIndex_le w
  have hact : ∀ i, w.actionable i sel = false := fun i => by
    simp [World.actionable, habsent]
  simp only [List.mem_cons, List.mem_singleton, List.not_mem_nil, or_false, Prod.mk.injEq] at hsel
  rcases hsel with ⟨rfl, rfl⟩ | ⟨rfl, rfl⟩ | ⟨rfl, rfl⟩
  · refine ⟨?_, fun hne => absurd hne (by decide)⟩
    intro hreached
    have hle : abortIndex w ≤ 6 :=
      abortIndex_le_of_fails w 6 (by simp [scriptNeeds, callFails, hact])
    rw [run_outcome w fs, run_trace w fs]
    rw [run_trace w fs] at hreached
    generalize abortIndex w = k at hreached hle hk
    interval_cases k <;> first | exact absurd hreached (by decide) | decide
  · have hle : abortIndex w ≤ 9 :=
      abortIndex_le_of_fails w 9 (by simp [scriptNeeds, callFails, hact])
    have hpe : (run w fs).pageEffects = [] := by
      rw [run_pageEffects]; simp [habsent]
    refine ⟨?_, ?_⟩
    · intro hreached
      rw [run_outcome w fs, run_trace w fs]
      rw [run_trace w fs] at hreached
      generalize abortIndex w = k at hreached hle hk
      interval_cases k <;> first | exact absurd hreached (by decide) | decide
    · intro _ hreached hf7
      have h7 : abortIndex w ≠ 7 := by
        intro h
        have := abortIndex_fails w (by omega)
        rw [h] at this
        simp [scriptNeeds, callFails, hf7] at this
      have h8 : w.fault 8 = false → abortIndex w ≠ 8 := by
        intro hf8 h
        have := abortIndex_fails w (by omega)
        rw [h] at this
        simp [scriptNeeds, callFails, hf8] at this
      rw [hpe, run_outcome w fs, run_trace w fs]
      rw [run_trace w fs] at hreached
      generalize abortIndex w = k at hreached hle hk h7 h8
      interval_cases k
      all_goals first
        | exact absurd hreached (by decide)
        | exact absurd rfl h7
        | exact ⟨by decide, by decide, rfl, by decide, fun hf8 => absurd rfl (h8 hf8)⟩
        | exact ⟨by decide, by decide, rfl, by decide, fun _ => by decide⟩
  · refine ⟨?_, fun hne => absurd hne (by decide)⟩
    intro hreached
    have hle : abortIndex w ≤ 10 :=
      abortIndex_le_of_fails w 10 (by simp [scriptNeeds, callFails, hact])
    rw [run_outcome w fs, run_trace w fs]
    rw [run_trace w fs] at hreached
    generalize abortIndex w = k at hreached hle hk
    interval_cases k <;> first | exact absurd hreached (by decide) | decide

/-- C6 (amended) applies to the run in the world `noServicesGrid`: the evaluate
call returns and the run ends with the services-grid screenshot throwing. -/
theorem C6_missing_selector_witness :
    (∀ i, noServicesGrid.first i ".services-grid" = none) ∧
    Event.returned Call.evaluate ∈ (run noServicesGrid noFiles).trace ∧
    (run noServicesGrid noFiles).trace.getLast? =
      some (Event.threw
        (Call.locatorScreenshot (Locator.mk ".services-grid" true)
          ".playwright-mcp/service-cards.png")) :=
  ⟨fun _ => by simp [noServicesGrid],
    ((C6_missing_selector noServicesGrid noFiles ".services-grid"
      (Call.locatorScreenshot (Locator.mk ".services-grid" true)
        ".playwright-mcp/service-cards.png")
      (by simp) (fun _ => by simp [noServicesGrid])).2 rfl (by decide) rfl).2.1,
    ((C6_missing_selector noServicesGrid noFiles ".services-grid"
      (Call.locatorScreenshot (Locator.mk ".services-grid" true)
        ".playwright-mcp/service-cards.png")
      (by simp) (fun _ => by simp [noServicesGrid])).1 (by decide)).2⟩

/-- C7: in every run that captures image A, the capture is the page screenshot
with fullPage false; the calls issued before it are launch, newContext with
viewport 1920 by 1080, newPage, goto and reload, of which only newContext sets
a viewport; and the image stored at the hero path is 1920 by 1080, whatever the
size of the document. -/
theorem C7_hero_dimensions (w : World) (fs : FS)
    (h : Event.wrote ".playwright-mcp/hero-section-full.png" ∈ (run w fs).trace) :
    (run w fs).fs ".playwright-mcp/hero-section-full.png" = some (Size.mk 1920 1080) ∧
    Event.returned (Call.pageScreenshot ".playwright-mcp/hero-section-full.png" false) ∈
      (run w fs).trace ∧
    Call.pageScreenshot ".playwright-mcp/hero-section-full.png" true ∉
      callsIssued (run w fs).trace ∧
    ((callsIssued (run w fs).trace).takeWhile fun c =>
        c != Call.pageScreenshot ".playwright-mcp/hero-section-full.png" false) =
      [Call.launch true, Call.newContext (Size.mk 1920 1080), Call.newPage,
       Call.goto "http://localhost:8082" "networkidle", Call.reload "networkidle"] := by
  have hk := abortIndex_le w
  rw [run_fs, run_trace w fs]
  rw [run_trace w fs] at h
  generalize abortIndex w = k at h hk
  interval_cases k <;> first | exact absurd h (by decide) | exact ⟨by simp, by decide⟩

/-- C7 applies to the run in a world where nothing fails and the document is
4000 pixels tall. -/
theorem C7_hero_dimensions_witness :
    Event.wrote ".playwright-mcp/hero-section-full.png" ∈ (run (failingAt 14) noFiles).trace ∧
    (failingAt 14).documentSize 5 = Size.mk 1920 4000 ∧
    (run (failingAt 14) noFiles).fs ".playwright-mcp/hero-section-full.png" =
      some (Size.mk 1920 1080) :=
  ⟨by decide, rfl, (C7_hero_dimensions (failingAt 14) noFiles (by decide)).1⟩

/-- C8: for every initial filesystem and every two worlds, if a first run
succeeds and a second run, started from the filesystem the first one left,
succeeds too, then both runs write the same four fixed paths, the second run
leaves a file at exactly the paths where the first one left a file, and those
are the paths that held a file initially together with the four fixed paths. -/
theorem C8_rerun_same_paths (w1 w2 : World) (fs : FS)
    (h1 : thrown (run w1 fs).trace = [])
    (h2 : thrown (run w2 (run w1 fs).fs).trace = []) :
    filesWritten (run w1 fs).trace =
      [".playwright-mcp/hero-section-full.png", ".playwright-mcp/navbar-glassmorphism.png",
       ".playwright-mcp/service-cards.png", ".playwright-mcp/service-card-hover.png"] ∧
    filesWritten (run w2 (run w1 fs).fs).trace = filesWritten (run w1 fs).trace ∧
    (∀ p, ((run w2 (run w1 fs).fs).fs p).isSome = ((run w1 fs).fs p).isSome) ∧
    (∀ p, ((run w1 fs).fs p).isSome = true ↔
      ((fs p).isSome = true ∨
        p ∈ [".playwright-mcp/hero-section-full.png", ".playwright-mcp/navbar-glassmorphism.png",
          ".playwright-mcp/service-cards.png", ".playwright-mcp/service-card-hover.png"])) := by
  have hk1 := abortIndex_of_no_throw w1 fs h1
  have hk2 := abortIndex_of_no_throw w2 (run w1 fs).fs h2
  refine ⟨?_, ?_, ?_, ?_⟩
  · rw [run_trace w1 fs, hk1]; decide
  · rw [run_trace w2, hk2, run_trace w1 fs, hk1]
  · intro p
    rw [run_fs w2, hk2, run_fs w1, hk1]
    by_cases hD : p = ".playwright-mcp/service-card-hover.png"
    · simp [hD]
    by_cases hC : p = ".playwright-mcp/service-cards.png"
    · simp [hC]
    by_cases hB : p = ".playwright-mcp/navbar-glassmorphism.png"
    · simp [hB]
    by_cases hA : p = ".playwright-mcp/hero-section-full.png"
    · simp [hA]
    simp [hA, hB, hC, hD]
  · intro p
    rw [run_fs w1, hk1]
    by_cases hD : p = ".playwright-mcp/service-card-hover.png"
    · simp [hD]
    by_cases hC : p = ".playwright-mcp/service-cards.png"
    · simp [hC]
    by_cases hB : p = ".playwright-mcp/navbar-glassmorphism.png"
    · simp [hB]
    by_cases hA : p = ".playwright-mcp/hero-section-full.png"
    · simp [hA]
    simp [hA, hB, hC, hD]

/-- C8 applies to two successive runs in a world where nothing fails, the first
from an empty filesystem. -/
theorem C8_rerun_same_paths_witness :
    thrown (run (failingAt 14) noFiles).trace = [] ∧
    thrown (run (failingAt 14) (run (failingAt 14) noFiles).fs).trace = [] ∧
    filesWritten (run (failingAt 14) (run (failingAt 14) noFiles).fs).trace =
      filesWritten (run (failingAt 14) noFiles).trace :=
  ⟨by decide, by decide,
    (C8_rerun_same_paths (failingAt 14) (failingAt 14) noFiles (by decide) (by decide)).2.1⟩

/-- C9: at every point of every run (after any number `n` of events, whether
the run succeeds or aborts), the files written so far are an initial segment of
the four fixed paths in order, the lines printed so far are an initial segment
of the six fixed lines in order, and each "screenshot saved" line is printed
only after the corresponding file has been written. -/
theorem C9_initial_segments (w : World) (fs : FS) (n : Nat) :
    filesWritten ((run w fs).trace.take n) <+:
      [".playwright-mcp/hero-section-full.png", ".playwright-mcp/navbar-glassmorphism.png",
       ".playwright-mcp/service-cards.png", ".playwright-mcp/service-card-hover.png"] ∧
    stdout ((run w fs).trace.take n) <+:
      ["Page loaded successfully", "Hero section screenshot saved", "Navbar screenshot saved",
       "Service cards screenshot saved", "Service card hover screenshot saved",
       "All screenshots captured successfully!"] ∧
    ("Hero section screenshot saved" ∈ stdout ((run w fs).trace.take n) →
      ".playwright-mcp/hero-section-full.png" ∈ filesWritten ((run w fs).trace.take n)) ∧
    ("Navbar screenshot saved" ∈ stdout ((run w fs).trace.take n) →
      ".playwright-mcp/navbar-glassmorphism.png" ∈ filesWritten ((run w fs).trace.take n)) ∧
    ("Service cards screenshot saved" ∈ stdout ((run w fs).trace.take n) →
      ".playwright-mcp/service-cards.png" ∈ filesWritten ((run w fs).trace.take n)) ∧
    ("Service card hover screenshot saved" ∈ stdout ((run w fs).trace.take n) →
      ".playwright-mcp/service-card-hover.png" ∈ filesWritten ((run w fs).trace.take n)) := by
  have hk := abortIndex_le w
  rw [run_trace w fs]
  generalize abortIndex w = k at hk
  have hmem : ((run (failingAt k) noFiles).trace.take n) ∈ (run (failingAt k) noFiles).trace.inits :=
    (List.mem_inits _ _).2 ( List.take_prefix _ _)
  revert hmem
  generalize (run (failingAt k) noFiles).trace.take n = t
  revert t
  interval_cases k <;> decide

/-- C10: close is called exactly when each of the thirteen preceding calls
returned; a run rejected by any call other than close never calls close; a
rejected run never prints the final line; and the final line is printed only
when all four images were written, close returned and the run is fulfilled. -/
theorem C10_teardown (w : World) (fs : FS) :
    (Event.called Call.close ∈ (run w fs).trace ↔
      ∀ c ∈ [Call.launch true,
          Call.newContext (Size.mk 1920 1080),
          Call.newPage,
          Call.goto "http://localhost:8082" "networkidle",
          Call.reload "networkidle",
          Call.pageScreenshot ".playwright-mcp/hero-section-full.png" false,
          Call.locatorScreenshot (Locator.mk "nav" true) ".playwright-mcp/navbar-glassmorphism.png",
          Call.evaluate,
          Call.waitForTimeout 1000,
          Call.locatorScreenshot (Locator.mk ".services-grid" true)
            ".playwright-mcp/service-cards.png",
          Call.hover (Locator.mk ".service-card" true),
          Call.waitForTimeout 500,
          Call.locatorScreenshot (Locator.mk ".service-card" true)
            ".playwright-mcp/service-card-hover.png"],
        Event.returned c ∈ (run w fs).trace) ∧
    ((run w fs).outcome ≠ Outcome.fulfilled → (run w fs).outcome ≠ Outcome.rejected Call.close →
      Event.called Call.close ∉ (run w fs).trace) ∧
    ((run w fs).outcome ≠ Outcome.fulfilled →
      "All screenshots captured successfully!" ∉ stdout (run w fs).trace) ∧
    ("All screenshots captured successfully!" ∈ stdout (run w fs).trace →
      filesWritten (run w fs).trace =
        [".playwright-mcp/hero-section-full.png", ".playwright-mcp/navbar-glassmorphism.png",
         ".playwright-mcp/service-cards.png", ".playwright-mcp/service-card-hover.png"] ∧
      Event.returned Call.close ∈ (run w fs).trace ∧
      (run w fs).outcome = Outcome.fulfilled) := by
  have hk := abortIndex_le w
  rw [run_trace w fs, run_outcome w fs]
  generalize abortIndex w = k at hk
  interval_cases k <;> decide

end CaptureScreenshots
